import Mathlib

/-!
Verification of the ventilator-waveform simulator core.

Shallow embedding of the class `VentilatorSimulator` of `src/sm3.py` (the
complete variant of the two near-duplicated program files; `src/prog2-0.py`
lacks `set_ventilation_mode`/`reset_buffers` and comments out the exponential
inspiratory-flow model).  Python floats are modelled as real numbers; Python's
float modulo `a % b` (for `b > 0`) is `a - b * ⌊a / b⌋`; the four parallel
numpy buffers are modelled as four Lean lists.
-/

namespace VentSim

/-- Ventilation mode: the attribute `self.ventilation_mode`, which holds one of
the two strings `"VC-CMV"` and `"PC-CMV"`. -/
inductive VentMode
  | VCCMV
  | PCCMV
deriving DecidableEq

/-- The ventilator parameters held as attributes of `VentilatorSimulator`
(set in `__init__`, mutated only by the `set_*` callbacks). -/
structure VentSettings where
  resp_rate : ℝ
  tidal_volume : ℝ
  peep : ℝ
  peak_pressure : ℝ
  ie_ratio : ℝ
  pressure_support : ℝ
  plateau_time : ℝ
  resistance : ℝ
  compliance : ℝ
  mode : VentMode

/-- The initial parameter values assigned in `__init__` (sm3.py lines 14-26). -/
def initialSettings : VentSettings where
  resp_rate := 15
  tidal_volume := 500
  peep := 5
  peak_pressure := 20
  ie_ratio := 1.2
  pressure_support := 15
  plateau_time := 0.3
  resistance := 10
  compliance := 0.05
  mode := VentMode.VCCMV

/-- Python float modulo `a % b` for `b > 0`: `a - b * floor (a / b)`. -/
noncomputable def pymod (a b : ℝ) : ℝ := a - b * ⌊a / b⌋

/-- `total_time = 60 / max(1, self.resp_rate)` (sm3.py line 354). -/
noncomputable def total_time (s : VentSettings) : ℝ := 60 / max 1 s.resp_rate

/-- `insp_time = total_time * (1 / (1 + (1 / self.ie_ratio)))` (line 356). -/
noncomputable def insp_time (s : VentSettings) : ℝ :=
  total_time s * (1 / (1 + 1 / s.ie_ratio))

/-- `exp_time = total_time * (1 / (1 + self.ie_ratio))` (line 357). -/
noncomputable def exp_time (s : VentSettings) : ℝ :=
  total_time s * (1 / (1 + s.ie_ratio))

/-- `cycle_progress = (self.time_index % total_time) / total_time` (line 359). -/
noncomputable def cycle_progress (s : VentSettings) (t : ℝ) : ℝ :=
  pymod t (total_time s) / total_time s

/-- `current_time_in_cycle = (self.time_index % total_time)` (line 360). -/
noncomputable def time_in_cycle (s : VentSettings) (t : ℝ) : ℝ :=
  pymod t (total_time s)

/-- `flujo_inicial = 38.0` in `calcular_flujo_insp` (line 347). -/
def flujo_inicial : ℝ := 38.0

/-- `flujo_final = 9.0` in `calcular_flujo_insp` (line 348). -/
def flujo_final : ℝ := 9.0

/-- `calcular_flujo_insp(ti, ti_total)` (lines 346-350):
`k = -log(flujo_final / flujo_inicial) / ti_total`, returns
`flujo_inicial * exp(-k * ti)`. -/
noncomputable def calcular_flujo_insp (ti ti_total : ℝ) : ℝ :=
  flujo_inicial * Real.exp (-(-Real.log (flujo_final / flujo_inicial) / ti_total) * ti)

/-- `ramp_time = insp_time * 0.2` in the PC-CMV branch (line 409). -/
noncomputable def ramp_time (s : VentSettings) : ℝ := insp_time s * 0.2

/-- `plateau_time = min(self.plateau_time, insp_time * 0.5)` (line 410). -/
noncomputable def plateau_eff (s : VentSettings) : ℝ :=
  min s.plateau_time (insp_time s * 0.5)

/-- `release_time = insp_time * 0.1` (line 411); computed but never used. -/
noncomputable def release_time (s : VentSettings) : ℝ := insp_time s * 0.1

/-- `peak_flow = (self.pressure_support / self.resistance) * 60` (line 428). -/
noncomputable def peak_flow (s : VentSettings) : ℝ :=
  s.pressure_support / s.resistance * 60

/-- VC-CMV flow (lines 364-393): in the inspiratory branch
(`cycle_progress * total_time < insp_time`) the call
`calcular_flujo_insp(current_time_in_cycle, insp_time)`; in the expiratory
branch `-50 * exp(-7*x)` with `x = (cycle_progress*total_time - insp_time) / exp_time`. -/
noncomputable def vc_flow (s : VentSettings) (t : ℝ) : ℝ :=
  if cycle_progress s t * total_time s < insp_time s then
    calcular_flujo_insp (time_in_cycle s t) (insp_time s)
  else
    -50 * Real.exp (-7 * ((cycle_progress s t * total_time s - insp_time s) / exp_time s))

/-- VC-CMV volume (lines 374, 405): inspiratory
`tidal_volume * 0.5 * (1 - cos(pi * x))` with `x = cycle_progress*total_time/insp_time`;
expiratory `tidal_volume * exp(-8*x)`. -/
noncomputable def vc_volume (s : VentSettings) (t : ℝ) : ℝ :=
  if cycle_progress s t * total_time s < insp_time s then
    s.tidal_volume * 0.5 *
      (1 - Real.cos (Real.pi * (cycle_progress s t * total_time s / insp_time s)))
  else
    s.tidal_volume *
      Real.exp (-8 * ((cycle_progress s t * total_time s - insp_time s) / exp_time s))

/-- VC-CMV pressure (lines 375-401): inspiratory branch tests
`current_time_in_cycle < insp_time` again and uses
`peep + (peak_pressure - peep) * (1 - exp(-2*x))` with
`x = current_time_in_cycle / insp_time`, else holds at `peep`; the expiratory
branch holds `peep`, or `peep + 0.4` when `peep <= 1`.  (In the Python the
final `else` leaves `pressure` unassigned; it is unreachable because
`¬ peep > 1` implies `peep ≤ 1`, and the placeholder `0` is never produced.) -/
noncomputable def vc_pressure (s : VentSettings) (t : ℝ) : ℝ :=
  if cycle_progress s t * total_time s < insp_time s then
    if time_in_cycle s t < insp_time s then
      s.peep + (s.peak_pressure - s.peep) *
        (1 - Real.exp (-2 * (time_in_cycle s t / insp_time s)))
    else
      s.peep
  else
    if s.peep > 1 then s.peep
    else if s.peep ≤ 1 then s.peep + 0.4
    else 0

/-- PC-CMV pressure if-chain (lines 415-425), as a function of
`current_time_in_cycle = cycle_progress * total_time`. -/
noncomputable def pc_pressure (s : VentSettings) (tic : ℝ) : ℝ :=
  if tic < ramp_time s then
    s.peep + s.pressure_support * (1 - Real.exp (-5 * (tic / ramp_time s)))
  else if tic < ramp_time s + plateau_eff s then
    s.peep + s.pressure_support
  else if tic < insp_time s then
    s.peep + s.pressure_support *
      Real.exp (-8 * ((tic - ramp_time s - plateau_eff s) /
        (insp_time s - ramp_time s - plateau_eff s)))
  else
    s.peep + (s.peak_pressure - s.peep) *
      Real.exp (-5 * ((tic - insp_time s) / exp_time s))

/-- PC-CMV flow if-chain (lines 428-438). -/
noncomputable def pc_flow (s : VentSettings) (tic : ℝ) : ℝ :=
  if tic < ramp_time s then
    peak_flow s * (1 - (tic / ramp_time s) ^ 2)
  else if tic < ramp_time s + plateau_eff s then
    peak_flow s * 0.3
  else if tic < insp_time s then
    peak_flow s * 0.1
  else
    -peak_flow s * 0.7 * Real.exp (-6 * ((tic - insp_time s) / exp_time s))

/-- PC-CMV volume (lines 441-455): nested if over inspiration
(ramp / plateau / late-inspiratory) and the expiratory branch. -/
noncomputable def pc_volume (s : VentSettings) (tic : ℝ) : ℝ :=
  if tic < insp_time s then
    if tic < ramp_time s then
      s.tidal_volume * 0.5 * (1 - Real.cos (Real.pi * (tic / ramp_time s) / 2))
    else if tic < ramp_time s + plateau_eff s then
      s.tidal_volume * (0.5 + 0.4 * ((tic - ramp_time s) / plateau_eff s))
    else
      s.tidal_volume * (0.9 + 0.1 *
        (1 - (tic - ramp_time s - plateau_eff s) /
          (insp_time s - ramp_time s - plateau_eff s)))
  else
    s.tidal_volume * Real.exp (-5 * ((tic - insp_time s) / exp_time s))

/-- `generate_next_point` (lines 352-457): returns
`(self.time_index, pressure, flow, volume)`; the PC-CMV branch reassigns
`current_time_in_cycle = cycle_progress * total_time` (line 412). -/
noncomputable def generate_next_point (s : VentSettings) (t : ℝ) : ℝ × ℝ × ℝ × ℝ :=
  match s.mode with
  | VentMode.VCCMV => (t, vc_pressure s t, vc_flow s t, vc_volume s t)
  | VentMode.PCCMV =>
      (t, pc_pressure s (cycle_progress s t * total_time s),
          pc_flow s (cycle_progress s t * total_time s),
          pc_volume s (cycle_progress s t * total_time s))

/-- `self.points_per_cycle = 200` (`__init__`, line 30). -/
def points_per_cycle : ℕ := 200

/-- `self.max_cycles = 3` (`__init__`, line 29). -/
def max_cycles : ℕ := 3

/-- `max_points = int(self.points_per_cycle * self.max_cycles)` (line 481). -/
def max_points : ℕ := points_per_cycle * max_cycles

/-- The four parallel numpy data buffers
(`time_data`, `pressure_data`, `flow_data`, `volume_data`). -/
structure Buffers where
  time_data : List ℝ
  pressure_data : List ℝ
  flow_data : List ℝ
  volume_data : List ℝ

/-- The empty buffers of `__init__` / `reset_buffers`. -/
def emptyBuffers : Buffers := ⟨[], [], [], []⟩

/-- Python slicing `arr[-k:]`: the whole array for `k = 0` (since `a[-0:]`
is `a[0:]`), else the last `k` entries. -/
def slice_last (k : ℕ) (l : List ℝ) : List ℝ :=
  if k = 0 then l else l.drop (l.length - k)

/-- The append-then-trim step of `update_graphs` (lines 474-486): `np.append`
one value to each buffer, then, when `len(time_data) > max_points`, keep the
last `max_points` entries of every buffer. -/
def appendPoint (m : ℕ) (b : Buffers) (t p f v : ℝ) : Buffers :=
  if m < (b.time_data ++ [t]).length then
    ⟨slice_last m (b.time_data ++ [t]), slice_last m (b.pressure_data ++ [p]),
     slice_last m (b.flow_data ++ [f]), slice_last m (b.volume_data ++ [v])⟩
  else
    ⟨b.time_data ++ [t], b.pressure_data ++ [p],
     b.flow_data ++ [f], b.volume_data ++ [v]⟩

/-- `appendPoint` on one generated sample `(t, pressure, flow, volume)`. -/
def appendSample (m : ℕ) (b : Buffers) (q : ℝ × ℝ × ℝ × ℝ) : Buffers :=
  appendPoint m b q.1 q.2.1 q.2.2.1 q.2.2.2

/-- `window_size = 10` (line 488). -/
def window_size : ℝ := 10

/-- `t_max = self.time_data[-1] if len(self.time_data) > 0 else 0` (line 489). -/
def window_t_max (b : Buffers) : ℝ := b.time_data.getLast?.getD 0

/-- `t_min = max(0, t_max - window_size)` (line 490). -/
def window_t_min (b : Buffers) : ℝ := max 0 (window_t_max b - window_size)

/-- The boolean mask `(time >= t_min) & (time <= t_max)` (line 491). -/
noncomputable def in_window (b : Buffers) (u : ℝ) : Bool :=
  decide (window_t_min b ≤ u) && decide (u ≤ window_t_max b)

/-- `self.time_data[mask]`: the visible time values. -/
noncomputable def visible_times (b : Buffers) : List ℝ :=
  b.time_data.filter (fun u => in_window b u)

/-- `values[mask]` for a value buffer paired with the time buffer. -/
noncomputable def masked (b : Buffers) (vals : List ℝ) : List ℝ :=
  ((b.time_data.zip vals).filter (fun q => in_window b q.1)).map (fun q => q.2)

/-- The rendering part of `update_graphs` (lines 487-498): it derives the
visible window from the buffers and hands it to the curves; the buffers
themselves are returned unchanged. -/
noncomputable def render_step (b : Buffers) :
    Buffers × (List ℝ × List ℝ) × (List ℝ × List ℝ) × (List ℝ × List ℝ) :=
  (b, (visible_times b, masked b b.pressure_data),
      (visible_times b, masked b b.flow_data),
      (visible_times b, masked b b.volume_data))

/-- Python `int(x)` on a float: truncation toward zero. -/
noncomputable def pytrunc (x : ℝ) : ℤ := if 0 ≤ x then ⌊x⌋ else ⌈x⌉

/-- The tick interval of `update_animation_speed` (lines 565-577):
`max(10, min(100, int(1000 / resp_rate)))` milliseconds. -/
noncomputable def interval_ms (rate : ℝ) : ℤ :=
  max 10 (min 100 (pytrunc (1000 / rate)))

/-- `round(value, 1)` used by `set_ie_ratio` (line 538), modelled as rounding
`value * 10` to the nearest integer (Mathlib `round` breaks ties upward where
Python rounds half to even; no tie arises in the claims). -/
noncomputable def pyround1 (v : ℝ) : ℝ := (round (v * 10) : ℤ) / 10

/-- The mutable session state of `VentilatorSimulator`: the parameters, the
four data buffers, `current_point`, `time_index`, `start_time`, and the
single QTimer (modelled as the interval it is currently started with, `none`
before `start_simulation`). -/
structure SimState where
  settings : VentSettings
  buffers : Buffers
  current_point : ℕ
  time_index : ℝ
  start_time : Option ℝ
  timer : Option ℤ

/-- `reset_buffers` (lines 335-343): empties the four buffers and resets
`current_point`, `time_index` and `start_time`. -/
def reset_buffers (st : SimState) : SimState :=
  { st with buffers := emptyBuffers, current_point := 0, time_index := 0,
            start_time := none }

/-- `set_ventilation_mode(mode)` (lines 500-514): stores the mode and calls
`reset_buffers` (label/button updates are UI and outside the model). -/
def set_ventilation_mode (mode : VentMode) (st : SimState) : SimState :=
  reset_buffers { st with settings := { st.settings with mode := mode } }

/-- `update_animation_speed` (lines 565-577): `timer.stop()` then
`timer.start(interval)`, so afterwards the one timer runs at exactly the
interval derived from the current respiratory rate. -/
noncomputable def update_animation_speed (st : SimState) : SimState :=
  { st with timer := some (interval_ms st.settings.resp_rate) }

/-- `set_resp_rate(value)` (lines 516-520): stores the rate and calls
`update_animation_speed`. -/
noncomputable def set_resp_rate (v : ℝ) (st : SimState) : SimState :=
  update_animation_speed { st with settings := { st.settings with resp_rate := v } }

/-- `set_tidal_volume(value)` (lines 522-525). -/
def set_tidal_volume (v : ℝ) (st : SimState) : SimState :=
  { st with settings := { st.settings with tidal_volume := v } }

/-- `set_peep(value)` (lines 527-530). -/
def set_peep (v : ℝ) (st : SimState) : SimState :=
  { st with settings := { st.settings with peep := v } }

/-- `set_peak_pressure(value)` (lines 532-535). -/
def set_peak_pressure (v : ℝ) (st : SimState) : SimState :=
  { st with settings := { st.settings with peak_pressure := v } }

/-- `set_ie_ratio(value)` (lines 537-540): stores `round(value, 1)`. -/
noncomputable def set_ie_ratio (v : ℝ) (st : SimState) : SimState :=
  { st with settings := { st.settings with ie_ratio := pyround1 v } }

/-- `set_pressure_support(value)` (lines 542-546): stores the value and also
overwrites `peak_pressure` with `peep + value`. -/
def set_pressure_support (v : ℝ) (st : SimState) : SimState :=
  { st with settings :=
      { st.settings with
          pressure_support := v
          peak_pressure := st.settings.peep + v } }

/-- `set_plateau_time(value)` (lines 548-550). -/
def set_plateau_time (v : ℝ) (st : SimState) : SimState :=
  { st with settings := { st.settings with plateau_time := v } }

/-- `set_resistance(value)` (lines 552-554). -/
def set_resistance (v : ℝ) (st : SimState) : SimState :=
  { st with settings := { st.settings with resistance := v } }

/-- `set_compliance(value)` (lines 556-558). -/
def set_compliance (v : ℝ) (st : SimState) : SimState :=
  { st with settings := { st.settings with compliance := v } }

/-- One tick of `update_graphs` (lines 461-486) at wall-clock time `now`:
when `start_time` is unset it becomes `now` and the elapsed time is 0, else
the elapsed time is `now - start_time` (the `msecsTo(...) / 1000` reading);
`time_index` is set to the elapsed time, `generate_next_point` produces the
sample `(time_index, pressure, flow, volume)`, and the buffers are appended
and trimmed.  The rendering of lines 487-498 is the read-only `render_step`. -/
noncomputable def update_graphs (now : ℝ) (st : SimState) : SimState :=
  match st.start_time with
  | none =>
      let st1 : SimState := { st with start_time := some now, time_index := 0 }
      let q := generate_next_point st1.settings st1.time_index
      { st1 with buffers := appendSample max_points st1.buffers q }
  | some t0 =>
      let st1 : SimState := { st with time_index := now - t0 }
      let q := generate_next_point st1.settings st1.time_index
      { st1 with buffers := appendSample max_points st1.buffers q }

/-- The session state as `__init__` leaves it, before the first timer tick. -/
def initialState : SimState :=
  ⟨initialSettings, emptyBuffers, 0, 0, none, none⟩

lemma max_one_pos (s : VentSettings) : (0 : ℝ) < max 1 s.resp_rate :=
  lt_of_lt_of_le one_pos (le_max_left 1 s.resp_rate)

lemma total_time_pos (s : VentSettings) : 0 < total_time s :=
  div_pos (by norm_num) (max_one_pos s)

lemma cycle_progress_mul_total (s : VentSettings) (t : ℝ) :
    cycle_progress s t * total_time s = time_in_cycle s t := by
  unfold cycle_progress time_in_cycle
  exact div_mul_cancel₀ _ (total_time_pos s).ne'

lemma insp_time_pos (s : VentSettings) (hie : 0 < s.ie_ratio) : 0 < insp_time s := by
  unfold insp_time
  have h1 : 0 < 1 + 1 / s.ie_ratio := by positivity
  have := total_time_pos s
  positivity

lemma insp_time_lt_total (s : VentSettings) (hie : 0 < s.ie_ratio) :
    insp_time s < total_time s := by
  unfold insp_time
  have hT := total_time_pos s
  have h1 : (1 : ℝ) < 1 + 1 / s.ie_ratio := by
    have : 0 < 1 / s.ie_ratio := by positivity
    linarith
  have hfrac : 1 / (1 + 1 / s.ie_ratio) < 1 := by
    rw [div_lt_one (by linarith)]
    exact h1
  calc total_time s * (1 / (1 + 1 / s.ie_ratio)) < total_time s * 1 := by
        exact mul_lt_mul_of_pos_left hfrac hT
    _ = total_time s := mul_one _

lemma pymod_eq_self {a b : ℝ} (h0 : 0 ≤ a) (hb : 0 < b) (hab : a < b) :
    pymod a b = a := by
  unfold pymod
  have hfl : ⌊a / b⌋ = 0 :=
    Int.floor_eq_zero_iff.mpr
      (Set.mem_Ico.mpr ⟨div_nonneg h0 hb.le, (div_lt_one hb).mpr hab⟩)
  rw [hfl]
  simp

lemma generate_fst (s : VentSettings) (t : ℝ) : (generate_next_point s t).1 = t := by
  cases h : s.mode <;> simp [generate_next_point, h]

lemma generate_vc_components (s : VentSettings) (t : ℝ) (hm : s.mode = VentMode.VCCMV) :
    generate_next_point s t = (t, vc_pressure s t, vc_flow s t, vc_volume s t) := by
  simp [generate_next_point, hm]

lemma generate_pc_components (s : VentSettings) (t : ℝ) (hm : s.mode = VentMode.PCCMV) :
    generate_next_point s t =
      (t, pc_pressure s (time_in_cycle s t), pc_flow s (time_in_cycle s t),
          pc_volume s (time_in_cycle s t)) := by
  simp [generate_next_point, hm, cycle_progress_mul_total]

lemma vc_pressure_insp (s : VentSettings) (t : ℝ)
    (ht : time_in_cycle s t < insp_time s) :
    vc_pressure s t =
      s.peep + (s.peak_pressure - s.peep) *
        (1 - Real.exp (-2 * (time_in_cycle s t / insp_time s))) := by
  unfold vc_pressure
  rw [cycle_progress_mul_total, if_pos ht, if_pos ht]

lemma vc_flow_insp (s : VentSettings) (t : ℝ)
    (ht : time_in_cycle s t < insp_time s) :
    vc_flow s t = calcular_flujo_insp (time_in_cycle s t) (insp_time s) := by
  unfold vc_flow
  rw [cycle_progress_mul_total, if_pos ht]

lemma vc_volume_insp (s : VentSettings) (t : ℝ)
    (ht : time_in_cycle s t < insp_time s) :
    vc_volume s t =
      s.tidal_volume * 0.5 *
        (1 - Real.cos (Real.pi * (time_in_cycle s t / insp_time s))) := by
  unfold vc_volume
  rw [cycle_progress_mul_total, if_pos ht]

lemma calcular_flujo_insp_zero (T : ℝ) :
    calcular_flujo_insp 0 T = flujo_inicial := by
  unfold calcular_flujo_insp
  simp

lemma calcular_flujo_insp_end {T : ℝ} (hT : T ≠ 0) :
    calcular_flujo_insp T T = flujo_final := by
  unfold calcular_flujo_insp
  rw [neg_div, neg_neg, div_mul_cancel₀ _ hT,
    Real.exp_log (by unfold flujo_final flujo_inicial; norm_num)]
  unfold flujo_final flujo_inicial
  norm_num

lemma total_time_initial : total_time initialSettings = 4 := by
  have hmax : max (1 : ℝ) 15 = 15 := max_eq_right (by norm_num)
  simp only [total_time, initialSettings, hmax]
  norm_num

lemma insp_time_initial : insp_time initialSettings = 24 / 11 := by
  unfold insp_time
  rw [total_time_initial]
  norm_num [initialSettings]

lemma exp_time_initial : exp_time initialSettings = 20 / 11 := by
  unfold exp_time
  rw [total_time_initial]
  norm_num [initialSettings]

lemma time_in_cycle_initial {t : ℝ} (h0 : 0 ≤ t) (h4 : t < 4) :
    time_in_cycle initialSettings t = t := by
  unfold time_in_cycle
  rw [total_time_initial]
  exact pymod_eq_self h0 (by norm_num) h4

/-- Claim C1: in VC-CMV mode, while `time_in_cycle < inspiratory_time`, with
`x = time_in_cycle / inspiratory_time` the generated flow is the exponential
decay `flujo_inicial * exp(-k*ti)` whose rate constant `k` makes the decay 38
at `ti = 0` and 9 at `ti = inspiratory_time`; the volume is the raised cosine
`tidal_volume * 0.5 * (1 - cos(pi*x))`; and the pressure is
`peep + (peak_pressure - peep) * (1 - exp(-2*x))`. -/
theorem claim1_vc_inspiratory (s : VentSettings) (t : ℝ)
    (hm : s.mode = VentMode.VCCMV) (hr : 0 < s.resp_rate) (hie : 0 < s.ie_ratio)
    (ht : time_in_cycle s t < insp_time s) :
    (generate_next_point s t).2.2.1
        = flujo_inicial *
            Real.exp (-(-Real.log (flujo_final / flujo_inicial) / insp_time s)
              * time_in_cycle s t)
    ∧ flujo_inicial *
        Real.exp (-(-Real.log (flujo_final / flujo_inicial) / insp_time s) * 0)
        = flujo_inicial
    ∧ flujo_inicial *
        Real.exp (-(-Real.log (flujo_final / flujo_inicial) / insp_time s)
          * insp_time s)
        = flujo_final
    ∧ (generate_next_point s t).2.2.2
        = s.tidal_volume * 0.5 *
            (1 - Real.cos (Real.pi * (time_in_cycle s t / insp_time s)))
    ∧ (generate_next_point s t).2.1
        = s.peep + (s.peak_pressure - s.peep) *
            (1 - Real.exp (-2 * (time_in_cycle s t / insp_time s))) := by
  rw [generate_vc_components s t hm]
  refine ⟨?_, ?_, ?_, ?_, ?_⟩
  · exact vc_flow_insp s t ht
  · exact calcular_flujo_insp_zero (insp_time s)
  · exact calcular_flujo_insp_end (insp_time_pos s hie).ne'
  · exact vc_volume_insp s t ht
  · exact vc_pressure_insp s t ht

/-- Witness for C1 at the program's initial settings and elapsed time 1 s. -/
theorem claim1_vc_inspiratory_witness :
    time_in_cycle initialSettings 1 < insp_time initialSettings
    ∧ (generate_next_point initialSettings 1).2.2.2
        = initialSettings.tidal_volume * 0.5 *
            (1 - Real.cos (Real.pi *
              (time_in_cycle initialSettings 1 / insp_time initialSettings))) := by
  have h1 : time_in_cycle initialSettings 1 = 1 :=
    time_in_cycle_initial (by norm_num) (by norm_num)
  have ht : time_in_cycle initialSettings 1 < insp_time initialSettings := by
    rw [h1, insp_time_initial]; norm_num
  exact ⟨ht, (claim1_vc_inspiratory initialSettings 1 rfl
    (by norm_num [initialSettings]) (by norm_num [initialSettings]) ht).2.2.2.1⟩

/-- Claim C3: in VC-CMV mode, in the expiratory phase, with
`x = (time_in_cycle - inspiratory_time) / expiratory_time` the flow is
`-50 * exp(-7*x)` (the peak magnitude 50 is a literal constant, taking no
setting as input), the volume is `tidal_volume * exp(-8*x)`, and the pressure
is `peep` when `peep > 1` and `peep + 0.4` when `peep <= 1`. -/
theorem claim3_vc_expiratory (s : VentSettings) (t : ℝ)
    (hm : s.mode = VentMode.VCCMV)
    (ht : insp_time s ≤ time_in_cycle s t) :
    (generate_next_point s t).2.2.1
        = -50 * Real.exp (-7 * ((time_in_cycle s t - insp_time s) / exp_time s))
    ∧ (generate_next_point s t).2.2.2
        = s.tidal_volume *
            Real.exp (-8 * ((time_in_cycle s t - insp_time s) / exp_time s))
    ∧ (1 < s.peep → (generate_next_point s t).2.1 = s.peep)
    ∧ (s.peep ≤ 1 → (generate_next_point s t).2.1 = s.peep + 0.4) := by
  rw [generate_vc_components s t hm]
  have hnot : ¬ cycle_progress s t * total_time s < insp_time s := by
    rw [cycle_progress_mul_total]; exact not_lt.mpr ht
  refine ⟨?_, ?_, ?_, ?_⟩
  · show vc_flow s t = _
    unfold vc_flow
    rw [if_neg hnot, cycle_progress_mul_total]
  · show vc_volume s t = _
    unfold vc_volume
    rw [if_neg hnot, cycle_progress_mul_total]
  · intro hp
    show vc_pressure s t = _
    unfold vc_pressure
    rw [if_neg hnot, if_pos hp]
  · intro hp
    show vc_pressure s t = _
    unfold vc_pressure
    rw [if_neg hnot, if_neg (not_lt.mpr hp), if_pos hp]

/-- Witness for C3 at the initial settings and elapsed time 3 s
(inside the expiratory phase, since the inspiratory time is 24/11 s). -/
theorem claim3_vc_expiratory_witness :
    insp_time initialSettings ≤ time_in_cycle initialSettings 3
    ∧ (1 : ℝ) < initialSettings.peep
    ∧ (generate_next_point initialSettings 3).2.1 = initialSettings.peep := by
  have h3 : time_in_cycle initialSettings 3 = 3 :=
    time_in_cycle_initial (by norm_num) (by norm_num)
  have ht : insp_time initialSettings ≤ time_in_cycle initialSettings 3 := by
    rw [h3, insp_time_initial]; norm_num
  have hp : (1 : ℝ) < initialSettings.peep := by norm_num [initialSettings]
  exact ⟨ht, hp,
    (claim3_vc_expiratory initialSettings 3 rfl ht).2.2.1 hp⟩

lemma vc_volume_formula_on_insp (s : VentSettings) (hm : s.mode = VentMode.VCCMV)
    (hie : 0 < s.ie_ratio) :
    ∀ u ∈ Set.Ico (0 : ℝ) (insp_time s),
      (generate_next_point s u).2.2.2
        = s.tidal_volume * 0.5 * (1 - Real.cos (Real.pi * (u / insp_time s))) := by
  intro u hu
  obtain ⟨hu0, hui⟩ := hu
  have htic : time_in_cycle s u = u := by
    unfold time_in_cycle
    exact pymod_eq_self hu0 (total_time_pos s)
      (lt_trans hui (insp_time_lt_total s hie))
  rw [generate_vc_components s u hm]
  show vc_volume s u = _
  rw [vc_volume_insp s u (by rw [htic]; exact hui), htic]

/-- Claim C7: in VC-CMV mode the volume at `time_in_cycle = 0` is 0 and the
pressure there is `peep`; the generated volume is monotone non-decreasing and
continuous in elapsed time across the whole inspiratory phase; and at the
initial settings (rate 15, I:E 1.2) the cycle timing is `total_time = 4`,
`inspiratory_time = 24/11 ≈ 2.18`, `expiratory_time = 20/11 ≈ 1.82`. -/
theorem claim7_vc_volume_shape (s : VentSettings) (hm : s.mode = VentMode.VCCMV)
    (hie : 0 < s.ie_ratio) (htv : 0 ≤ s.tidal_volume) :
    (∀ t : ℝ, time_in_cycle s t = 0 →
        (generate_next_point s t).2.2.2 = 0 ∧ (generate_next_point s t).2.1 = s.peep)
    ∧ MonotoneOn (fun u => (generate_next_point s u).2.2.2)
        (Set.Ico 0 (insp_time s))
    ∧ ContinuousOn (fun u => (generate_next_point s u).2.2.2)
        (Set.Ico 0 (insp_time s))
    ∧ total_time initialSettings = 4
    ∧ insp_time initialSettings = 24 / 11
    ∧ exp_time initialSettings = 20 / 11
    ∧ |insp_time initialSettings - 2.18| < 0.01
    ∧ |exp_time initialSettings - 1.82| < 0.01 := by
  have key := vc_volume_formula_on_insp s hm hie
  have hins := insp_time_pos s hie
  refine ⟨?_, ?_, ?_, total_time_initial, insp_time_initial, exp_time_initial, ?_, ?_⟩
  · intro t h0
    have ht : time_in_cycle s t < insp_time s := by rw [h0]; exact hins
    rw [generate_vc_components s t hm]
    constructor
    · show vc_volume s t = 0
      rw [vc_volume_insp s t ht, h0]
      simp
    · show vc_pressure s t = s.peep
      rw [vc_pressure_insp s t ht, h0]
      simp
  · intro a ha b hb hab
    simp only
    rw [key a ha, key b hb]
    have hcos : Real.cos (Real.pi * (b / insp_time s))
        ≤ Real.cos (Real.pi * (a / insp_time s)) := by
      apply Real.cos_le_cos_of_nonneg_of_le_pi
      · have := ha.1
        positivity
      · have hb1 : b / insp_time s ≤ 1 := (div_le_one hins).mpr hb.2.le
        calc Real.pi * (b / insp_time s) ≤ Real.pi * 1 :=
              mul_le_mul_of_nonneg_left hb1 Real.pi_pos.le
          _ = Real.pi := mul_one _
      · have : a / insp_time s ≤ b / insp_time s :=
          div_le_div_of_nonneg_right hab hins.le
        exact mul_le_mul_of_nonneg_left this Real.pi_pos.le
    have h05 : (0 : ℝ) ≤ s.tidal_volume * 0.5 := by
      have : (0 : ℝ) ≤ (0.5 : ℝ) := by norm_num
      exact mul_nonneg htv this
    exact mul_le_mul_of_nonneg_left (by linarith) h05
  · have hg : Continuous
        (fun u : ℝ => s.tidal_volume * 0.5 *
          (1 - Real.cos (Real.pi * (u / insp_time s)))) := by
      fun_prop
    exact hg.continuousOn.congr fun u hu => key u hu
  · rw [insp_time_initial, abs_sub_lt_iff]
    constructor <;> norm_num
  · rw [exp_time_initial, abs_sub_lt_iff]
    constructor <;> norm_num

/-- Witness for C7 at the program's initial settings. -/
theorem claim7_vc_volume_shape_witness :
    (0 : ℝ) < initialSettings.ie_ratio
    ∧ (0 : ℝ) ≤ initialSettings.tidal_volume
    ∧ MonotoneOn (fun u => (generate_next_point initialSettings u).2.2.2)
        (Set.Ico 0 (insp_time initialSettings)) :=
  ⟨by norm_num [initialSettings], by norm_num [initialSettings],
    (claim7_vc_volume_shape initialSettings rfl (by norm_num [initialSettings])
      (by norm_num [initialSettings])).2.1⟩

/-- Claim C2: in PC-CMV mode `generate_next_point` follows the four-phase
piecewise definition, with `ramp_time = 0.2 * inspiratory_time`,
`plateau = min(configured plateau, 0.5 * inspiratory_time)` and
`peak_flow = (pressure_support / resistance) * 60`: ramp
(`pressure = peep + ps*(1-exp(-5x))`, `flow = peak_flow*(1-x^2)`,
`volume = Vt*0.5*(1-cos(pi*x/2))`), plateau (`pressure = peep + ps`,
`flow = 0.3*peak_flow`, volume linear from 0.5 to 0.9 of Vt), release
(pressure decaying exponentially toward peep, `flow = 0.1*peak_flow`,
`volume = Vt*(0.9 + 0.1*(1-x))`), and expiration (pressure decaying
exponentially from peak_pressure toward peep, `flow = -0.7*peak_flow*exp(-6x)`,
`volume = Vt*exp(-5x)`). -/
theorem claim2_pc_phases (s : VentSettings) (t : ℝ)
    (hm : s.mode = VentMode.PCCMV) (hie : 0 < s.ie_ratio)
    (hpl : 0 ≤ s.plateau_time) :
    ramp_time s = 0.2 * insp_time s
    ∧ plateau_eff s = min s.plateau_time (0.5 * insp_time s)
    ∧ peak_flow s = s.pressure_support / s.resistance * 60
    ∧ (time_in_cycle s t < ramp_time s →
        (generate_next_point s t).2.1
            = s.peep + s.pressure_support *
                (1 - Real.exp (-5 * (time_in_cycle s t / ramp_time s)))
        ∧ (generate_next_point s t).2.2.1
            = peak_flow s * (1 - (time_in_cycle s t / ramp_time s) ^ 2)
        ∧ (generate_next_point s t).2.2.2
            = s.tidal_volume * 0.5 *
                (1 - Real.cos (Real.pi * (time_in_cycle s t / ramp_time s) / 2)))
    ∧ (ramp_time s ≤ time_in_cycle s t →
        time_in_cycle s t < ramp_time s + plateau_eff s →
        (generate_next_point s t).2.1 = s.peep + s.pressure_support
        ∧ (generate_next_point s t).2.2.1 = peak_flow s * 0.3
        ∧ (generate_next_point s t).2.2.2
            = s.tidal_volume * (0.5 + 0.4 *
                ((time_in_cycle s t - ramp_time s) / plateau_eff s)))
    ∧ (ramp_time s + plateau_eff s ≤ time_in_cycle s t →
        time_in_cycle s t < insp_time s →
        (generate_next_point s t).2.1
            = s.peep + s.pressure_support *
                Real.exp (-8 * ((time_in_cycle s t - ramp_time s - plateau_eff s) /
                  (insp_time s - ramp_time s - plateau_eff s)))
        ∧ (generate_next_point s t).2.2.1 = peak_flow s * 0.1
        ∧ (generate_next_point s t).2.2.2
            = s.tidal_volume * (0.9 + 0.1 *
                (1 - (time_in_cycle s t - ramp_time s - plateau_eff s) /
                  (insp_time s - ramp_time s - plateau_eff s))))
    ∧ (insp_time s ≤ time_in_cycle s t →
        (generate_next_point s t).2.1
            = s.peep + (s.peak_pressure - s.peep) *
                Real.exp (-5 * ((time_in_cycle s t - insp_time s) / exp_time s))
        ∧ (generate_next_point s t).2.2.1
            = -peak_flow s * 0.7 *
                Real.exp (-6 * ((time_in_cycle s t - insp_time s) / exp_time s))
        ∧ (generate_next_point s t).2.2.2
            = s.tidal_volume *
                Real.exp (-5 * ((time_in_cycle s t - insp_time s) / exp_time s))) := by
  have hinsp_pos := insp_time_pos s hie
  have hramp_lt : ramp_time s < insp_time s := by
    unfold ramp_time; nlinarith
  have hplat_le : plateau_eff s ≤ insp_time s * 0.5 := min_le_right _ _
  have hplat_nonneg : 0 ≤ plateau_eff s :=
    le_min hpl (by nlinarith)
  have hrampplat_lt : ramp_time s + plateau_eff s < insp_time s := by
    unfold ramp_time at *; nlinarith
  rw [generate_pc_components s t hm]
  refine ⟨by rw [ramp_time, mul_comm], by rw [plateau_eff, mul_comm (insp_time s)],
    rfl, ?_, ?_, ?_, ?_⟩
  · intro h1
    have hinsp : time_in_cycle s t < insp_time s := lt_trans h1 hramp_lt
    refine ⟨?_, ?_, ?_⟩
    · show pc_pressure s (time_in_cycle s t) = _
      unfold pc_pressure
      rw [if_pos h1]
    · show pc_flow s (time_in_cycle s t) = _
      unfold pc_flow
      rw [if_pos h1]
    · show pc_volume s (time_in_cycle s t) = _
      unfold pc_volume
      rw [if_pos hinsp, if_pos h1]
  · intro h1 h2
    have hinsp : time_in_cycle s t < insp_time s := lt_trans h2 hrampplat_lt
    refine ⟨?_, ?_, ?_⟩
    · show pc_pressure s (time_in_cycle s t) = _
      unfold pc_pressure
      rw [if_neg (not_lt.mpr h1), if_pos h2]
    · show pc_flow s (time_in_cycle s t) = _
      unfold pc_flow
      rw [if_neg (not_lt.mpr h1), if_pos h2]
    · show pc_volume s (time_in_cycle s t) = _
      unfold pc_volume
      rw [if_pos hinsp, if_neg (not_lt.mpr h1), if_pos h2]
  · intro h1 h2
    have hnr : ¬ time_in_cycle s t < ramp_time s :=
      not_lt.mpr (le_trans (le_add_of_nonneg_right hplat_nonneg) h1)
    have hnp : ¬ time_in_cycle s t < ramp_time s + plateau_eff s := not_lt.mpr h1
    refine ⟨?_, ?_, ?_⟩
    · show pc_pressure s (time_in_cycle s t) = _
      unfold pc_pressure
      rw [if_neg hnr, if_neg hnp, if_pos h2]
    · show pc_flow s (time_in_cycle s t) = _
      unfold pc_flow
      rw [if_neg hnr, if_neg hnp, if_pos h2]
    · show pc_volume s (time_in_cycle s t) = _
      unfold pc_volume
      rw [if_pos h2, if_neg hnr, if_neg hnp]
  · intro h1
    have hni : ¬ time_in_cycle s t < insp_time s := not_lt.mpr h1
    have hnr : ¬ time_in_cycle s t < ramp_time s :=
      not_lt.mpr (le_trans hramp_lt.le h1)
    have hnp : ¬ time_in_cycle s t < ramp_time s + plateau_eff s :=
      not_lt.mpr (le_trans hrampplat_lt.le h1)
    refine ⟨?_, ?_, ?_⟩
    · show pc_pressure s (time_in_cycle s t) = _
      unfold pc_pressure
      rw [if_neg hnr, if_neg hnp, if_neg hni]
    · show pc_flow s (time_in_cycle s t) = _
      unfold pc_flow
      rw [if_neg hnr, if_neg hnp, if_neg hni]
    · show pc_volume s (time_in_cycle s t) = _
      unfold pc_volume
      rw [if_neg hni]

/-- Witness for C2 at the initial settings switched to PC-CMV, elapsed time 0. -/
theorem claim2_pc_phases_witness :
    ({ initialSettings with mode := VentMode.PCCMV } : VentSettings).mode
        = VentMode.PCCMV
    ∧ peak_flow { initialSettings with mode := VentMode.PCCMV }
        = ({ initialSettings with mode := VentMode.PCCMV } : VentSettings).pressure_support /
            ({ initialSettings with mode := VentMode.PCCMV } : VentSettings).resistance * 60 :=
  ⟨rfl, (claim2_pc_phases { initialSettings with mode := VentMode.PCCMV } 0 rfl
    (by norm_num [initialSettings]) (by norm_num [initialSettings])).2.2.1⟩

lemma slice_last_length_le {m : ℕ} (hm : 0 < m) (l : List ℝ) :
    (slice_last m l).length ≤ l.length := by
  unfold slice_last
  rw [if_neg hm.ne']
  simp

lemma slice_last_length {m : ℕ} (hm : 0 < m) {l : List ℝ} (h : m ≤ l.length) :
    (slice_last m l).length = m := by
  unfold slice_last
  rw [if_neg hm.ne']
  simp
  omega

lemma slice_last_suffix {m : ℕ} (hm : 0 < m) (l : List ℝ) :
    slice_last m l <:+ l := by
  unfold slice_last
  rw [if_neg hm.ne']
  exact List.drop_suffix _ _

lemma appendSample_inv {m : ℕ} (hm : 0 < m) {b : Buffers} (q : ℝ × ℝ × ℝ × ℝ)
    (hlen : b.time_data.length ≤ m)
    (hp : b.pressure_data.length = b.time_data.length)
    (hf : b.flow_data.length = b.time_data.length)
    (hv : b.volume_data.length = b.time_data.length) :
    (appendSample m b q).time_data.length ≤ m
    ∧ (appendSample m b q).pressure_data.length
        = (appendSample m b q).time_data.length
    ∧ (appendSample m b q).flow_data.length
        = (appendSample m b q).time_data.length
    ∧ (appendSample m b q).volume_data.length
        = (appendSample m b q).time_data.length
    ∧ (appendSample m b q).time_data <:+ b.time_data ++ [q.1] := by
  unfold appendSample appendPoint
  by_cases hc : m < (b.time_data ++ [q.1]).length
  · rw [if_pos hc]
    simp only [List.length_append, List.length_singleton] at hc
    have hmt : m ≤ (b.time_data ++ [q.1]).length := by
      simp only [List.length_append, List.length_singleton]; omega
    have hmp : m ≤ (b.pressure_data ++ [q.2.1]).length := by
      simp only [List.length_append, List.length_singleton]; omega
    have hmf : m ≤ (b.flow_data ++ [q.2.2.1]).length := by
      simp only [List.length_append, List.length_singleton]; omega
    have hmv : m ≤ (b.volume_data ++ [q.2.2.2]).length := by
      simp only [List.length_append, List.length_singleton]; omega
    refine ⟨le_of_eq (slice_last_length hm hmt), ?_, ?_, ?_,
      slice_last_suffix hm _⟩
    · rw [slice_last_length hm hmt, slice_last_length hm hmp]
    · rw [slice_last_length hm hmt, slice_last_length hm hmf]
    · rw [slice_last_length hm hmt, slice_last_length hm hmv]
  · rw [if_neg hc]
    simp only [List.length_append, List.length_singleton] at hc ⊢
    refine ⟨by omega, by omega, by omega, by omega, List.suffix_rfl⟩

lemma IsSuffix.append_right {l₁ l₂ l₃ : List ℝ} (h : l₁ <:+ l₂) :
    l₁ ++ l₃ <:+ l₂ ++ l₃ := by
  obtain ⟨u, hu⟩ := h
  exact ⟨u, by rw [← hu, List.append_assoc]⟩

lemma foldAppend_inv (m : ℕ) (hm : 0 < m) (pts : List (ℝ × ℝ × ℝ × ℝ)) :
    (pts.foldl (appendSample m) emptyBuffers).time_data.length ≤ m
    ∧ (pts.foldl (appendSample m) emptyBuffers).pressure_data.length
        = (pts.foldl (appendSample m) emptyBuffers).time_data.length
    ∧ (pts.foldl (appendSample m) emptyBuffers).flow_data.length
        = (pts.foldl (appendSample m) emptyBuffers).time_data.length
    ∧ (pts.foldl (appendSample m) emptyBuffers).volume_data.length
        = (pts.foldl (appendSample m) emptyBuffers).time_data.length
    ∧ (pts.foldl (appendSample m) emptyBuffers).time_data
        <:+ pts.map (fun q => q.1) := by
  induction pts using List.reverseRecOn with
  | nil => exact ⟨by simp [emptyBuffers], by simp [emptyBuffers],
      by simp [emptyBuffers], by simp [emptyBuffers], by simp [emptyBuffers]⟩
  | append_singleton xs q ih =>
    obtain ⟨hlen, hp, hf, hv, hsuf⟩ := ih
    rw [List.foldl_append]
    obtain ⟨hlen', hp', hf', hv', hsuf'⟩ :=
      appendSample_inv hm q hlen hp hf hv
    refine ⟨hlen', hp', hf', hv', ?_⟩
    rw [List.map_append]
    exact hsuf'.trans (IsSuffix.append_right hsuf)

/-- Claim C4: folding any sequence of tick appends into the empty buffers, the
history never exceeds `points_per_cycle * max_cycles` entries (in any of the
four parallel buffers); the surviving entries are a suffix of the appended
values (the oldest are evicted first, the most recent kept); and when the
appended times are non-decreasing so are the stored times. -/
theorem claim4_buffer_bound (pts : List (ℝ × ℝ × ℝ × ℝ))
    (hmono : pts.Pairwise (fun a b => a.1 ≤ b.1)) :
    (pts.foldl (appendSample max_points) emptyBuffers).time_data.length
        ≤ points_per_cycle * max_cycles
    ∧ (pts.foldl (appendSample max_points) emptyBuffers).pressure_data.length
        ≤ points_per_cycle * max_cycles
    ∧ (pts.foldl (appendSample max_points) emptyBuffers).flow_data.length
        ≤ points_per_cycle * max_cycles
    ∧ (pts.foldl (appendSample max_points) emptyBuffers).volume_data.length
        ≤ points_per_cycle * max_cycles
    ∧ (pts.foldl (appendSample max_points) emptyBuffers).time_data
        <:+ pts.map (fun q => q.1)
    ∧ (pts.foldl (appendSample max_points) emptyBuffers).time_data.Pairwise
        (fun a b => a ≤ b) := by
  have hm : 0 < max_points := by decide
  obtain ⟨hlen, hp, hf, hv, hsuf⟩ := foldAppend_inv max_points hm pts
  have hmax : max_points = points_per_cycle * max_cycles := rfl
  refine ⟨hmax ▸ hlen, hp ▸ hmax ▸ hlen, hf ▸ hmax ▸ hlen, hv ▸ hmax ▸ hlen,
    hsuf, ?_⟩
  have hmap : (pts.map (fun q => q.1)).Pairwise (fun a b => a ≤ b) :=
    List.Pairwise.map _ (fun a b h => h) hmono
  exact List.Pairwise.sublist hsuf.sublist hmap

/-- Witness for C4: three appended samples with non-decreasing times. -/
theorem claim4_buffer_bound_witness :
    ([((0 : ℝ), (5 : ℝ), (38 : ℝ), (0 : ℝ)), (1, 10, 20, 100), (2, 15, 12, 300)].Pairwise
        (fun a b => a.1 ≤ b.1))
    ∧ ([((0 : ℝ), (5 : ℝ), (38 : ℝ), (0 : ℝ)), (1, 10, 20, 100),
        (2, 15, 12, 300)].foldl (appendSample max_points) emptyBuffers).time_data.length
        ≤ points_per_cycle * max_cycles := by
  have hmono : ([((0 : ℝ), (5 : ℝ), (38 : ℝ), (0 : ℝ)), (1, 10, 20, 100),
      (2, 15, 12, 300)].Pairwise (fun a b => a.1 ≤ b.1)) := by
    simp only [List.pairwise_cons, List.mem_cons, List.mem_singleton]
    norm_num
  exact ⟨hmono, (claim4_buffer_bound _ hmono).1⟩

/-- Claim C5: the visible window satisfies `t_min = max(0, t_max - window_size)`
where `t_max` is the last stored time (0 when empty); it contains exactly the
stored times `u` with `t_min ≤ u ≤ t_max` (in order, as a sublist of the
history); and computing it leaves the history unchanged. -/
theorem claim5_visible_window (b : Buffers) :
    window_t_min b = max 0 (window_t_max b - window_size)
    ∧ (b.time_data = [] → window_t_max b = 0)
    ∧ (∀ u : ℝ, u ∈ visible_times b ↔
        u ∈ b.time_data ∧ window_t_min b ≤ u ∧ u ≤ window_t_max b)
    ∧ List.Sublist (visible_times b) b.time_data
    ∧ (render_step b).1 = b := by
  refine ⟨rfl, ?_, ?_, List.filter_sublist _, rfl⟩
  · intro h
    unfold window_t_max
    rw [h]
    rfl
  · intro u
    unfold visible_times in_window
    rw [List.mem_filter]
    simp [and_assoc]

/-- Claim C6: right after `set_ventilation_mode` returns, all four data
buffers are empty and the elapsed-time origin is reset (`start_time = None`,
`time_index = 0`); the next tick therefore generates its sample at a new zero
time (the stored time of the single sample is 0). -/
theorem claim6_mode_switch_resets (st : SimState) (mode : VentMode) :
    (set_ventilation_mode mode st).buffers.time_data.length = 0
    ∧ (set_ventilation_mode mode st).buffers.pressure_data.length = 0
    ∧ (set_ventilation_mode mode st).buffers.flow_data.length = 0
    ∧ (set_ventilation_mode mode st).buffers.volume_data.length = 0
    ∧ (set_ventilation_mode mode st).start_time = none
    ∧ (set_ventilation_mode mode st).time_index = 0
    ∧ (set_ventilation_mode mode st).settings.mode = mode
    ∧ (∀ now : ℝ,
        (update_graphs now (set_ventilation_mode mode st)).time_index = 0
        ∧ (update_graphs now (set_ventilation_mode mode st)).buffers.time_data
            = [0]) := by
  refine ⟨rfl, rfl, rfl, rfl, rfl, rfl, rfl, ?_⟩
  intro now
  constructor
  · rfl
  · show (appendSample max_points emptyBuffers
        (generate_next_point (set_ventilation_mode mode st).settings 0)).time_data
        = [0]
    unfold appendSample appendPoint
    rw [if_neg (by simp [emptyBuffers]; decide)]
    rw [generate_fst]
    rfl

/-- Claim C8: calling the respiratory-rate setter restarts the tick scheduler
at the interval `clamp(int(1000 / rate), 10, 100)` derived from the new rate,
whatever the scheduler held before (no stale interval survives); rate 30
yields 33 ms and rate 5 yields 100 ms. -/
theorem claim8_scheduler_interval (st : SimState) (v : ℝ) (hv : 0 < v) :
    (set_resp_rate v st).timer = some (interval_ms v)
    ∧ (set_resp_rate v st).settings.resp_rate = v
    ∧ interval_ms v = max 10 (min 100 (pytrunc (1000 / v)))
    ∧ interval_ms 30 = 33
    ∧ interval_ms 5 = 100 := by
  have h30 : pytrunc ((1000 : ℝ) / 30) = 33 := by
    unfold pytrunc
    rw [if_pos (by norm_num), Int.floor_eq_iff]
    constructor <;> norm_num
  have h5 : pytrunc ((1000 : ℝ) / 5) = 200 := by
    unfold pytrunc
    rw [if_pos (by norm_num), Int.floor_eq_iff]
    constructor <;> norm_num
  refine ⟨rfl, rfl, rfl, ?_, ?_⟩
  · unfold interval_ms
    rw [h30]
    decide
  · unfold interval_ms
    rw [h5]
    decide

/-- Witness for C8 at rate 30, from the start-of-session state. -/
theorem claim8_scheduler_interval_witness :
    (0 : ℝ) < 30
    ∧ (set_resp_rate 30 initialState).timer = some (interval_ms 30) :=
  ⟨by norm_num, (claim8_scheduler_interval initialState 30 (by norm_num)).1⟩

/-- Claim C9: the cycle-timing divisor `max(1, resp_rate)` is at least 1 for
every respiratory-rate value (also out-of-range rates at or below 0), so
`total_time = 60 / max(1, resp_rate)` never divides by zero and is positive;
and for every `ie_ratio > 0` the code's `total_time * (1 / (1 + 1/ie))` and
`total_time * (1 / (1 + ie))` equal `total_time / (1 + 1/ie)` and
`total_time / (1 + ie)`. -/
theorem claim9_timing_guard (s : VentSettings) (hie : 0 < s.ie_ratio) :
    (1 : ℝ) ≤ max 1 s.resp_rate
    ∧ max 1 s.resp_rate ≠ 0
    ∧ total_time s = 60 / max 1 s.resp_rate
    ∧ 0 < total_time s
    ∧ insp_time s = total_time s / (1 + 1 / s.ie_ratio)
    ∧ exp_time s = total_time s / (1 + s.ie_ratio)
    ∧ 0 < insp_time s
    ∧ 0 < exp_time s := by
  refine ⟨le_max_left 1 _, (max_one_pos s).ne', rfl, total_time_pos s,
    mul_one_div _ _, mul_one_div _ _, insp_time_pos s hie, ?_⟩
  unfold exp_time
  have h1 : (0 : ℝ) < 1 + s.ie_ratio := by linarith
  have := total_time_pos s
  positivity

/-- Witness for C9 at the initial settings (and, for the guard, the fact that
the divisor stays 1 when the rate is forced to the out-of-range value -3). -/
theorem claim9_timing_guard_witness :
    (0 : ℝ) < initialSettings.ie_ratio
    ∧ 0 < total_time initialSettings
    ∧ max 1 ({ initialSettings with resp_rate := -3 } : VentSettings).resp_rate ≠ 0 :=
  ⟨by norm_num [initialSettings],
    (claim9_timing_guard initialSettings (by norm_num [initialSettings])).2.2.2.1,
    (claim9_timing_guard { initialSettings with resp_rate := -3 }
      (by norm_num [initialSettings])).2.1⟩

/-- Claim C10: `set_pressure_support v` stores `v` and also overwrites
`peak_pressure` with `peep + v` (the PEEP at call time); no other parameter
setter touches `peak_pressure` (only `set_peak_pressure`, whose own field it
is); and a later `set_peep` does not re-derive it: the old `peep + v`
survives. -/
theorem claim10_pressure_support_side_effect (st : SimState) (v : ℝ) :
    (set_pressure_support v st).settings.pressure_support = v
    ∧ (set_pressure_support v st).settings.peak_pressure = st.settings.peep + v
    ∧ (∀ w : ℝ, (set_resp_rate w st).settings.peak_pressure
        = st.settings.peak_pressure)
    ∧ (∀ w : ℝ, (set_tidal_volume w st).settings.peak_pressure
        = st.settings.peak_pressure)
    ∧ (∀ w : ℝ, (set_peep w st).settings.peak_pressure
        = st.settings.peak_pressure)
    ∧ (∀ w : ℝ, (set_ie_ratio w st).settings.peak_pressure
        = st.settings.peak_pressure)
    ∧ (∀ w : ℝ, (set_plateau_time w st).settings.peak_pressure
        = st.settings.peak_pressure)
    ∧ (∀ w : ℝ, (set_resistance w st).settings.peak_pressure
        = st.settings.peak_pressure)
    ∧ (∀ w : ℝ, (set_compliance w st).settings.peak_pressure
        = st.settings.peak_pressure)
    ∧ (∀ p : ℝ, (set_peep p (set_pressure_support v st)).settings.peak_pressure
        = st.settings.peep + v) :=
  ⟨rfl, rfl, fun _ => rfl, fun _ => rfl, fun _ => rfl, fun _ => rfl,
    fun _ => rfl, fun _ => rfl, fun _ => rfl, fun _ => rfl⟩

end VentSim
